import Mathlib

/-!
Shallow embedding of the Twitter fetch-loop core of `web_tools.py`
(class `Twitter_Session`): the paginated fetch loops (`get_user_tweets`,
`get_user_following`, `get_user_followers`, `get_string_query`), the
rate-limit tracker (`return_server_limits`), the single-user profile
lookup (`get_user_profile`) and the snapshot orchestration
(`get_user_snapshot`).

Modelling conventions:
* A decoded JSON record (one element of the response's `data` array, or the
  single user object of the profile endpoint) is a `Rec`: an id plus an
  abstract numeric payload distinguishing records.
* A decoded HTTP response is a `Resp`.  `data = none` models a body without
  a `data` key (indexing raises `KeyError`); `next_token = none` models a
  body where `["meta"]["next_token"]` raises `KeyError`.  The rate-limit
  headers `x-rate-limit-remaining` / `x-rate-limit-limit` are modelled as
  the already-parsed integer counts the server sends; `x-rate-limit-reset`
  and the derived `limit_reset` / `limit_delta` / `checked_at` fields are
  wall-clock values and are not modelled.  Python's float arithmetic on the
  two counts is idealised as exact integer arithmetic.
* The network is an environment `env : Nat → Resp` giving the response to
  the k-th HTTP request of the run; the session state `Sess` records the
  transcript of requests issued, the last response (`self.response`) and
  the rate-limit log (`self.limit_log`).
* Python exceptions are the error side of `Except PyError`; the session
  state is returned alongside in either case, since the Python object is
  mutated in place.  `time.sleep` (the `timer` flag) has no observable
  effect in the model and is omitted.
-/

/-- One decoded JSON record of a response's `data` array. -/
structure Rec where
  id : String
  v : Nat
deriving DecidableEq

/-- A decoded API response: body fields read by the code, plus the parsed
rate-limit headers and the transaction-id header. -/
structure Resp where
  title : Option String
  data : Option (List Rec)
  next_token : Option String
  errors : Option (List Rec)
  remaining : Nat
  limit : Nat
  txid : String
deriving DecidableEq

/-- One HTTP request issued by a fetch loop: the endpoint it addresses, the
subject (user id, username or query term) and the pagination token, if any. -/
structure Req where
  endpoint : String
  subject : String
  token : Option String
deriving DecidableEq

/-- The rate-limit snapshot built by `return_server_limits` (the
`limit_reset` / `limit_delta` wall-clock fields are not modelled). -/
structure Snapshot where
  remaining : Nat
  limit : Nat
  percent_remaining : Nat
deriving DecidableEq

/-- A Python exception escaping a modelled method. -/
inductive PyError where
  | exception (msg : String)
  | keyError
  | zeroDivisionError
  | indexError
deriving DecidableEq

deriving instance DecidableEq for Except

/-- The session's rate-limit log `self.limit_log`: endpoint name to last
stored snapshot, most recent binding first. -/
abbrev Log := List (String × Snapshot)

/-- Session state threaded through a run: transcript of requests issued,
last response received (`self.response`) and the rate-limit log. -/
structure Sess where
  requests : List Req
  response : Resp
  limit_log : Log
deriving DecidableEq

/-- `get_url`: issue one request and store its response in `self.response`.
The response is looked up in the environment at the request's position in
the transcript. -/
def get_url (env : Nat → Resp) (s : Sess) (req : Req) : Sess :=
  { s with requests := s.requests ++ [req], response := env s.requests.length }

/-- `return_server_limits`: parse the rate-limit headers of the response and
compute `percent_remaining = int(remaining / limit * 100)`.  In Python the
division of two floats raises `ZeroDivisionError` when `limit` is `0.0`. -/
def return_server_limits (r : Resp) : Except PyError Snapshot :=
  if r.limit = 0 then .error .zeroDivisionError
  else .ok ⟨r.remaining, r.limit, r.remaining * 100 / r.limit⟩

/-- The assignment `self.limit_log[key] = self.return_server_limits()`: on
success the key is (re)bound, on a raise the log is left untouched because
the exception fires before the assignment. -/
def set_limit_log (log : Log) (key : String) (r : Resp) : Except PyError Log :=
  match return_server_limits r with
  | .error e => .error e
  | .ok snap => .ok ((key, snap) :: log.filter (fun p => p.1 ≠ key))

/-- The result returned by `get_user_tweets`: the flattened tweet table on
success, the `errors` payload as a table, or a one-row table of the raw
response body when post-processing found neither data nor errors. -/
inductive TweetsResult where
  | table (rows : List Rec)
  | errorsTable (errs : List Rec)
  | rawBody (body : Resp)
deriving DecidableEq

/-- The `for i in range(pages)` loop of `get_user_tweets`.  Page 0: request
the base URL, raise on the `UsageCapExceeded` title, and keep the records
only when `json().get("data")` is truthy (present and non-empty).  Later
pages: read `["meta"]["next_token"]` from the previous response and
`["data"]` from the new one inside `try/except KeyError`, a missing key
breaking out of the loop. -/
def tweets_go (env : Nat → Resp) (uid : String) :
    Nat → Nat → List Rec → Sess → Except PyError (List Rec) × Sess
  | _, 0, df, s => (.ok df, s)
  | 0, n + 1, df, s =>
    let s1 := get_url env s ⟨"user_tweets", uid, none⟩
    if s1.response.title = some "UsageCapExceeded" then
      (.error (.exception "Usage cap exceeded for Tweets."), s1)
    else
      let df1 := match s1.response.data with
        | some l => if l.isEmpty then df else l
        | none => df
      tweets_go env uid 1 n df1 s1
  | i + 1, n + 1, df, s =>
    match s.response.next_token with
    | none => (.ok df, s)
    | some tok =>
      let s1 := get_url env s ⟨"user_tweets", uid, some tok⟩
      match s1.response.data with
      | none => (.ok df, s1)
      | some l => tweets_go env uid (i + 2) n (df ++ l) s1

/-- `get_user_tweets`: run the loop (`pages` defaults to 1500 when the
kwarg is absent), then post-process.  Expanding the nested
`public_metrics` column raises `KeyError` exactly when the collected table
is empty (tweet records always carry the column); the handler stores the
rate-limit snapshot and falls back to the `errors` payload when truthy,
else to a one-row table of the raw body. -/
def get_user_tweets (env : Nat → Resp) (uid : String) (pages? : Option Nat)
    (s : Sess) : Except PyError TweetsResult × Sess :=
  match tweets_go env uid 0 (pages?.getD 1500) [] s with
  | (.error e, s1) => (.error e, s1)
  | (.ok df, s1) =>
    if df.isEmpty then
      match set_limit_log s1.limit_log "user_tweets" s1.response with
      | .error e => (.error e, s1)
      | .ok log1 =>
        let s2 := { s1 with limit_log := log1 }
        match s2.response.errors with
        | some es => if es.isEmpty then (.ok (.rawBody s2.response), s2)
                     else (.ok (.errorsTable es), s2)
        | none => (.ok (.rawBody s2.response), s2)
    else
      match set_limit_log s1.limit_log "user_tweets" s1.response with
      | .error e => (.error e, s1)
      | .ok log1 => (.ok (.table df), { s1 with limit_log := log1 })

/-- The `for i in range(pages)` loop of `get_user_following`.  Page 0
indexes `json()["data"]` directly, so a body without a `data` key raises an
uncaught `KeyError`; later pages sit inside `try/except KeyError` and break. -/
def following_go (env : Nat → Resp) (uid : String) :
    Nat → Nat → List Rec → Sess → Except PyError (List Rec) × Sess
  | _, 0, df, s => (.ok df, s)
  | 0, n + 1, _, s =>
    let s1 := get_url env s ⟨"user_following", uid, none⟩
    match s1.response.data with
    | none => (.error .keyError, s1)
    | some l => following_go env uid 1 n l s1
  | i + 1, n + 1, df, s =>
    match s.response.next_token with
    | none => (.ok df, s)
    | some tok =>
      let s1 := get_url env s ⟨"user_following", uid, some tok⟩
      match s1.response.data with
      | none => (.ok df, s1)
      | some l => following_go env uid (i + 2) n (df ++ l) s1

/-- `get_user_following`: loop (`pages` defaults to 15), then store the
rate-limit snapshot and return the collected table. -/
def get_user_following (env : Nat → Resp) (uid : String) (pages? : Option Nat)
    (s : Sess) : Except PyError (List Rec) × Sess :=
  match following_go env uid 0 (pages?.getD 15) [] s with
  | (.error e, s1) => (.error e, s1)
  | (.ok df, s1) =>
    match set_limit_log s1.limit_log "user_following" s1.response with
    | .error e => (.error e, s1)
    | .ok log1 => (.ok df, { s1 with limit_log := log1 })

/-- The loop of `get_user_followers`, identical in shape to
`following_go` but addressing the followers endpoint. -/
def followers_go (env : Nat → Resp) (uid : String) :
    Nat → Nat → List Rec → Sess → Except PyError (List Rec) × Sess
  | _, 0, df, s => (.ok df, s)
  | 0, n + 1, _, s =>
    let s1 := get_url env s ⟨"user_followers", uid, none⟩
    match s1.response.data with
    | none => (.error .keyError, s1)
    | some l => followers_go env uid 1 n l s1
  | i + 1, n + 1, df, s =>
    match s.response.next_token with
    | none => (.ok df, s)
    | some tok =>
      let s1 := get_url env s ⟨"user_followers", uid, some tok⟩
      match s1.response.data with
      | none => (.ok df, s1)
      | some l => followers_go env uid (i + 2) n (df ++ l) s1

/-- `get_user_followers`: loop (`pages` defaults to 15), then store the
rate-limit snapshot and return the collected table. -/
def get_user_followers (env : Nat → Resp) (uid : String) (pages? : Option Nat)
    (s : Sess) : Except PyError (List Rec) × Sess :=
  match followers_go env uid 0 (pages?.getD 15) [] s with
  | (.error e, s1) => (.error e, s1)
  | (.ok df, s1) =>
    match set_limit_log s1.limit_log "user_followers" s1.response with
    | .error e => (.error e, s1)
    | .ok log1 => (.ok df, { s1 with limit_log := log1 })

/-- The loop of `get_string_query`.  The rate-limit snapshot is stored after
every page; neither the cursor read nor the `["data"]` read is guarded by a
`try/except`, so a missing key raises `KeyError` to the caller.  The
session's `query_log` bookkeeping after the loop records wall-clock data
and is not modelled. -/
def query_go (env : Nat → Resp) (q : String) :
    Nat → Nat → List Rec → Sess → Except PyError (List Rec) × Sess
  | _, 0, df, s => (.ok df, s)
  | 0, n + 1, _, s =>
    let s1 := get_url env s ⟨"query", q, none⟩
    match set_limit_log s1.limit_log "query" s1.response with
    | .error e => (.error e, s1)
    | .ok log1 =>
      let s2 := { s1 with limit_log := log1 }
      match s2.response.data with
      | none => (.error .keyError, s2)
      | some l => query_go env q 1 n l s2
  | i + 1, n + 1, df, s =>
    match s.response.next_token with
    | none => (.error .keyError, s)
    | some tok =>
      let s1 := get_url env s ⟨"query", q, some tok⟩
      match set_limit_log s1.limit_log "query" s1.response with
      | .error e => (.error e, s1)
      | .ok log1 =>
        let s2 := { s1 with limit_log := log1 }
        match s2.response.data with
        | none => (.error .keyError, s2)
        | some l => query_go env q (i + 2) n (df ++ l) s2

/-- `get_string_query`: run the loop (`pages` defaults to 1) and return the
collected table (the final `reset_index` preserves rows). -/
def get_string_query (env : Nat → Resp) (q : String) (pages? : Option Nat)
    (s : Sess) : Except PyError (List Rec) × Sess :=
  query_go env q 0 (pages?.getD 1) [] s

/-- The result of `get_user_profile`: the parsed profile table (carrying the
user object, whose `id` column feeds the snapshot orchestration) or the
`errors` payload as a table. -/
inductive ProfileResult where
  | table (user : Rec)
  | errorsTable (errs : List Rec)
deriving DecidableEq

/-- `get_user_profile`: `username[0]` raises `IndexError` on the empty
string before any request is issued; a leading `@` is stripped; then one
request is made, the rate-limit snapshot stored, and the body's `data`
object parsed, the `except KeyError` handler falling back to the `errors`
payload (whose absence re-raises `KeyError` inside the handler). -/
def get_user_profile (env : Nat → Resp) (username : String) (s : Sess) :
    Except PyError ProfileResult × Sess :=
  if username.isEmpty then (.error .indexError, s)
  else
    let uname := if username.front = '@' then username.drop 1 else username
    let s1 := get_url env s ⟨"user_profile", uname, none⟩
    match set_limit_log s1.limit_log "user_profile" s1.response with
    | .error e => (.error e, s1)
    | .ok log1 =>
      let s2 := { s1 with limit_log := log1 }
      match s2.response.data with
      | some (u :: _) => (.ok (.table u), s2)
      | some [] => (.error .keyError, s2)
      | none =>
        match s2.response.errors with
        | some es => (.ok (.errorsTable es), s2)
        | none => (.error .keyError, s2)

/-- A `df_to_db` call recorded by the snapshot orchestration: the table id
(the user id) and the table name written. -/
abbrev DbWrite := String × String

/-- Row count of a `get_user_tweets` result, as handed to `df_to_db`. -/
def tweets_rows : TweetsResult → Nat
  | .table rows => rows.length
  | .errorsTable errs => errs.length
  | .rawBody _ => 1

/-- `get_user_snapshot`: fetch the profile and persist it, fetch the tweets
and persist them, then `if kwargs.get("followers")` fetch *following* (the
source crosses the names) `elif kwargs.get("following")` fetch *followers*.
Reading `df["id"][0]` from an errors table raises `KeyError`.  Each
`df_to_db` call is recorded as a write of (id, table name). -/
def get_user_snapshot (env : Nat → Resp) (username : String)
    (followers following : Bool) (s : Sess) :
    Except PyError Unit × Sess × List DbWrite :=
  match get_user_profile env username s with
  | (.error e, s1) => (.error e, s1, [])
  | (.ok (.errorsTable _), s1) => (.error .keyError, s1, [])
  | (.ok (.table u), s1) =>
    let w1 : List DbWrite := [(u.id, "profile")]
    match get_user_tweets env u.id none s1 with
    | (.error e, s2) => (.error e, s2, w1)
    | (.ok _, s2) =>
      let w2 := w1 ++ [(u.id, "tweets")]
      if followers then
        match get_user_following env u.id none s2 with
        | (.error e, s3) => (.error e, s3, w2)
        | (.ok _, s3) => (.ok (), s3, w2 ++ [(u.id, "following")])
      else if following then
        match get_user_followers env u.id none s2 with
        | (.error e, s3) => (.error e, s3, w2)
        | (.ok _, s3) => (.ok (), s3, w2 ++ [(u.id, "followers")])
      else (.ok (), s2, w2)

/-- Specification-side order of a collected table: the concatenation, in
arrival order, of the `data` payloads of the first `k` responses (a missing
or absent payload contributing no rows). -/
def collected (env : Nat → Resp) (k : Nat) : List Rec :=
  ((List.range k).map (fun j => ((env j).data).getD [])).flatten

/-! Concrete environments used by witnesses and counterexamples. -/

/-- A response carrying no interesting body fields at all. -/
def dummyResp : Resp := ⟨none, none, none, none, 0, 1, ""⟩

/-- A fresh session: empty transcript, no previous response, empty log. -/
def sess0 : Sess := ⟨[], dummyResp, []⟩

/-- The 100 records of scenario page 0. -/
def page0recs : List Rec := (List.range 100).map (fun n => ⟨"p0", n⟩)

/-- The 100 records of scenario page 1. -/
def page1recs : List Rec := (List.range 100).map (fun n => ⟨"p1", n⟩)

/-- The 50 records of scenario page 2. -/
def page2recs : List Rec := (List.range 50).map (fun n => ⟨"p2", n⟩)

/-- The spec's three-page scenario: page 0 returns 100 records and cursor
"A", page 1 returns 100 records and cursor "B", page 2 returns 50 records
and no cursor. -/
def scenarioEnv : Nat → Resp := fun k =>
  if k = 0 then ⟨none, some page0recs, some "A", none, 90, 100, "t0"⟩
  else if k = 1 then ⟨none, some page1recs, some "B", none, 89, 100, "t1"⟩
  else ⟨none, some page2recs, none, none, 88, 100, "t2"⟩

/-- An environment whose every response reports the hard usage-cap title. -/
def capEnv : Nat → Resp :=
  fun _ => ⟨some "UsageCapExceeded", none, none, none, 50, 100, "tc"⟩

/-- An environment whose every response reports a rate limit of zero. -/
def zeroLimitEnv : Nat → Resp :=
  fun _ => ⟨none, some [⟨"z", 0⟩], none, none, 0, 0, "tz"⟩

/-- An environment whose every response has neither `data`, `errors`,
`title` nor a continuation cursor. -/
def noDataEnv : Nat → Resp := fun _ => ⟨none, none, none, none, 5, 10, "tn"⟩

/-- An environment whose page 0 carries data but no continuation cursor. -/
def qEnv : Nat → Resp := fun k =>
  if k = 0 then ⟨none, some [⟨"q", 0⟩], none, none, 5, 10, "tq"⟩ else dummyResp

/-- An inexhaustible environment: every response carries one record and a
continuation cursor. -/
def endlessEnv : Nat → Resp :=
  fun _ => ⟨none, some [⟨"e", 0⟩], some "T", none, 99, 100, "te"⟩

/-- A one-page environment: a single record and no continuation cursor. -/
def oneEnv : Nat → Resp :=
  fun _ => ⟨none, some [⟨"a", 0⟩], none, none, 9, 10, "to"⟩

/-! Helper lemmas about the fetch loops. -/

theorem get_url_requests (env : Nat → Resp) (s : Sess) (req : Req) :
    (get_url env s req).requests = s.requests ++ [req] := rfl

theorem get_url_requests_length (env : Nat → Resp) (s : Sess) (req : Req) :
    (get_url env s req).requests.length = s.requests.length + 1 := by
  simp [get_url]

theorem tweets_go_len_le (env : Nat → Resp) (uid : String) :
    ∀ n i df s, ((tweets_go env uid i n df s).2.requests.length ≤ s.requests.length + n) := by
  intro n
  induction n with
  | zero => intro i df s; cases i <;> simp [tweets_go]
  | succ n ih =>
    intro i df s
    cases i with
    | zero =>
      rw [tweets_go]
      split
      · simp [get_url]
      · exact le_trans (ih 1 _ _) (by simp [get_url]; omega)
    | succ i =>
      rw [tweets_go]
      cases h : s.response.next_token with
      | none => simp
      | some tok =>
        simp only []
        cases h2 : (get_url env s ⟨"user_tweets", uid, some tok⟩).response.data with
        | none => simp [get_url]
        | some l => exact le_trans (ih (i + 2) _ _) (by simp [get_url]; omega)

theorem following_go_len_le (env : Nat → Resp) (uid : String) :
    ∀ n i df s, ((following_go env uid i n df s).2.requests.length ≤ s.requests.length + n) := by
  intro n
  induction n with
  | zero => intro i df s; cases i <;> simp [following_go]
  | succ n ih =>
    intro i df s
    cases i with
    | zero =>
      rw [following_go]
      cases h : (get_url env s ⟨"user_following", uid, none⟩).response.data with
      | none => simp [get_url]
      | some l => exact le_trans (ih 1 _ _) (by simp [get_url]; omega)
    | succ i =>
      rw [following_go]
      cases h : s.response.next_token with
      | none => simp
      | some tok =>
        simp only []
        cases h2 : (get_url env s ⟨"user_following", uid, some tok⟩).response.data with
        | none => simp [get_url]
        | some l => exact le_trans (ih (i + 2) _ _) (by simp [get_url]; omega)

theorem followers_go_len_le (env : Nat → Resp) (uid : String) :
    ∀ n i df s, ((followers_go env uid i n df s).2.requests.length ≤ s.requests.length + n) := by
  intro n
  induction n with
  | zero => intro i df s; cases i <;> simp [followers_go]
  | succ n ih =>
    intro i df s
    cases i with
    | zero =>
      rw [followers_go]
      cases h : (get_url env s ⟨"user_followers", uid, none⟩).response.data with
      | none => simp [get_url]
      | some l => exact le_trans (ih 1 _ _) (by simp [get_url]; omega)
    | succ i =>
      rw [followers_go]
      cases h : s.response.next_token with
      | none => simp
      | some tok =>
        simp only []
        cases h2 : (get_url env s ⟨"user_followers", uid, some tok⟩).response.data with
        | none => simp [get_url]
        | some l => exact le_trans (ih (i + 2) _ _) (by simp [get_url]; omega)

theorem get_user_tweets_sess (env : Nat → Resp) (uid : String) (p : Option Nat) (s : Sess) :
    (get_user_tweets env uid p s).2.requests
      = (tweets_go env uid 0 (p.getD 1500) [] s).2.requests
    ∧ (get_user_tweets env uid p s).2.response
      = (tweets_go env uid 0 (p.getD 1500) [] s).2.response := by
  unfold get_user_tweets
  rcases h : tweets_go env uid 0 (p.getD 1500) [] s with ⟨e | df, s1⟩
  · simp
  · simp only []
    split <;> (repeat' split) <;> simp

theorem get_user_following_sess (env : Nat → Resp) (uid : String) (p : Option Nat) (s : Sess) :
    (get_user_following env uid p s).2.requests
      = (following_go env uid 0 (p.getD 15) [] s).2.requests
    ∧ (get_user_following env uid p s).2.response
      = (following_go env uid 0 (p.getD 15) [] s).2.response := by
  unfold get_user_following
  rcases h : following_go env uid 0 (p.getD 15) [] s with ⟨e | df, s1⟩
  · simp
  · simp only []
    split <;> simp

theorem get_user_followers_sess (env : Nat → Resp) (uid : String) (p : Option Nat) (s : Sess) :
    (get_user_followers env uid p s).2.requests
      = (followers_go env uid 0 (p.getD 15) [] s).2.requests
    ∧ (get_user_followers env uid p s).2.response
      = (followers_go env uid 0 (p.getD 15) [] s).2.response := by
  unfold get_user_followers
  rcases h : followers_go env uid 0 (p.getD 15) [] s with ⟨e | df, s1⟩
  · simp
  · simp only []
    split <;> simp

theorem collected_succ (env : Nat → Resp) (k : Nat) :
    collected env (k + 1) = collected env k ++ ((env k).data).getD [] := by
  simp [collected, List.range_succ]

theorem tweets_go_stop (env : Nat → Resp) (uid : String) (j : Nat)
    (hj : (env j).next_token = none) :
    ∀ n i df s, s.response = env (s.requests.length - 1) →
      1 ≤ s.requests.length → s.requests.length ≤ j + 1 →
      ((tweets_go env uid (i + 1) n df s).2.requests.length ≤ j + 1) := by
  intro n
  induction n with
  | zero => intro i df s _ _ h3; simpa [tweets_go] using h3
  | succ n ih =>
    intro i df s h1 h2 h3
    rw [tweets_go]
    cases h : s.response.next_token with
    | none => simpa using h3
    | some tok =>
      have hne : s.requests.length - 1 ≠ j := by
        intro he
        rw [h1, he, hj] at h
        exact Option.noConfusion h
      have hlt : s.requests.length ≤ j := by omega
      simp only []
      cases h2d : (get_url env s ⟨"user_tweets", uid, some tok⟩).response.data with
      | none => simp [get_url]; omega
      | some l =>
        refine ih (i + 1) _ _ ?_ ?_ ?_
        · simp [get_url]
        · simp [get_url]
        · simp [get_url]; omega

theorem tweets_go_collect (env : Nat → Resp) (uid : String) :
    ∀ n i df s, s.response = env (s.requests.length - 1) →
      1 ≤ s.requests.length → df = collected env s.requests.length →
      ∀ df' s', tweets_go env uid (i + 1) n df s = (.ok df', s') →
        df' = collected env s'.requests.length := by
  intro n
  induction n with
  | zero =>
    intro i df s _ _ hdf df' s' heq
    rw [tweets_go] at heq
    cases heq
    exact hdf
  | succ n ih =>
    intro i df s h1 h2 hdf df' s' heq
    rw [tweets_go] at heq
    cases h : s.response.next_token with
    | none =>
      rw [h] at heq
      cases heq
      exact hdf
    | some tok =>
      rw [h] at heq
      simp only [] at heq
      cases h2d : (get_url env s ⟨"user_tweets", uid, some tok⟩).response.data with
      | none =>
        rw [h2d] at heq
        cases heq
        have : (env s.requests.length).data = none := by simpa [get_url] using h2d
        rw [hdf]
        simp [get_url, collected_succ, this]
      | some l =>
        rw [h2d] at heq
        refine ih (i + 1) _ _ ?_ ?_ ?_ df' s' heq
        · simp [get_url]
        · simp [get_url]
        · have : (env s.requests.length).data = some l := by simpa [get_url] using h2d
          simp [get_url, collected_succ, this, hdf]

theorem following_go_collect (env : Nat → Resp) (uid : String) :
    ∀ n i df s, s.response = env (s.requests.length - 1) →
      1 ≤ s.requests.length → df = collected env s.requests.length →
      ∀ df' s', following_go env uid (i + 1) n df s = (.ok df', s') →
        df' = collected env s'.requests.length := by
  intro n
  induction n with
  | zero =>
    intro i df s _ _ hdf df' s' heq
    rw [following_go] at heq
    cases heq
    exact hdf
  | succ n ih =>
    intro i df s h1 h2 hdf df' s' heq
    rw [following_go] at heq
    cases h : s.response.next_token with
    | none =>
      rw [h] at heq
      cases heq
      exact hdf
    | some tok =>
      rw [h] at heq
      simp only [] at heq
      cases h2d : (get_url env s ⟨"user_following", uid, some tok⟩).response.data with
      | none =>
        rw [h2d] at heq
        cases heq
        have : (env s.requests.length).data = none := by simpa [get_url] using h2d
        rw [hdf]
        simp [get_url, collected_succ, this]
      | some l =>
        rw [h2d] at heq
        refine ih (i + 1) _ _ ?_ ?_ ?_ df' s' heq
        · simp [get_url]
        · simp [get_url]
        · have : (env s.requests.length).data = some l := by simpa [get_url] using h2d
          simp [get_url, collected_succ, this, hdf]

theorem tweets_go_endless (uid : String) :
    ∀ n i df s, s.response = endlessEnv 0 →
      ((tweets_go endlessEnv uid (i + 1) n df s).2.requests.length = s.requests.length + n
       ∧ (tweets_go endlessEnv uid (i + 1) n df s).2.response = endlessEnv 0) := by
  intro n
  induction n with
  | zero => intro i df s h; rw [tweets_go]; exact ⟨rfl, h⟩
  | succ n ih =>
    intro i df s h
    rw [tweets_go]
    have htok : s.response.next_token = some "T" := by rw [h]; rfl
    rw [htok]
    have hdata : (get_url endlessEnv s ⟨"user_tweets", uid, some "T"⟩).response.data
        = some [⟨"e", 0⟩] := rfl
    simp only [hdata]
    have hresp : (get_url endlessEnv s ⟨"user_tweets", uid, some "T"⟩).response
        = endlessEnv 0 := rfl
    obtain ⟨hl, hr⟩ := ih (i + 1) (df ++ [⟨"e", 0⟩])
      (get_url endlessEnv s ⟨"user_tweets", uid, some "T"⟩) hresp
    refine ⟨?_, hr⟩
    rw [hl, get_url_requests_length]
    omega

theorem following_go_endless (uid : String) :
    ∀ n i df s, s.response = endlessEnv 0 →
      ((following_go endlessEnv uid (i + 1) n df s).2.requests.length = s.requests.length + n
       ∧ (following_go endlessEnv uid (i + 1) n df s).2.response = endlessEnv 0) := by
  intro n
  induction n with
  | zero => intro i df s h; rw [following_go]; exact ⟨rfl, h⟩
  | succ n ih =>
    intro i df s h
    rw [following_go]
    have htok : s.response.next_token = some "T" := by rw [h]; rfl
    rw [htok]
    have hdata : (get_url endlessEnv s ⟨"user_following", uid, some "T"⟩).response.data
        = some [⟨"e", 0⟩] := rfl
    simp only [hdata]
    obtain ⟨hl, hr⟩ := ih (i + 1) (df ++ [⟨"e", 0⟩])
      (get_url endlessEnv s ⟨"user_following", uid, some "T"⟩) rfl
    refine ⟨?_, hr⟩
    rw [hl, get_url_requests_length]
    omega

theorem followers_go_endless (uid : String) :
    ∀ n i df s, s.response = endlessEnv 0 →
      ((followers_go endlessEnv uid (i + 1) n df s).2.requests.length = s.requests.length + n
       ∧ (followers_go endlessEnv uid (i + 1) n df s).2.response = endlessEnv 0) := by
  intro n
  induction n with
  | zero => intro i df s h; rw [followers_go]; exact ⟨rfl, h⟩
  | succ n ih =>
    intro i df s h
    rw [followers_go]
    have htok : s.response.next_token = some "T" := by rw [h]; rfl
    rw [htok]
    have hdata : (get_url endlessEnv s ⟨"user_followers", uid, some "T"⟩).response.data
        = some [⟨"e", 0⟩] := rfl
    simp only [hdata]
    obtain ⟨hl, hr⟩ := ih (i + 1) (df ++ [⟨"e", 0⟩])
      (get_url endlessEnv s ⟨"user_followers", uid, some "T"⟩) rfl
    refine ⟨?_, hr⟩
    rw [hl, get_url_requests_length]
    omega

/-! Claim theorems. -/

/-- Claim C1: a `get_user_tweets` run whose page-0 response carries the
`UsageCapExceeded` title raises the explicit usage-cap exception having
issued exactly the one page-0 request — no further page is requested — and
leaves the session's rate-limit log exactly as it was before the run (the
aborted run does not mutate it). -/
theorem claim_c1 (env : Nat → Resp) (uid : String) (pages? : Option Nat)
    (log : Log) (r0 : Resp) (hp : 1 ≤ pages?.getD 1500)
    (hcap : (env 0).title = some "UsageCapExceeded") :
    get_user_tweets env uid pages? ⟨[], r0, log⟩
      = (.error (.exception "Usage cap exceeded for Tweets."),
         ⟨[⟨"user_tweets", uid, none⟩], env 0, log⟩) := by
  obtain ⟨m, hm⟩ : ∃ m, pages?.getD 1500 = m + 1 :=
    ⟨pages?.getD 1500 - 1, by omega⟩
  unfold get_user_tweets
  rw [hm, tweets_go]
  simp [get_url, hcap]

/-- Witness for C1 at a concrete capped environment. -/
theorem claim_c1_witness :
    get_user_tweets capEnv "u" (some 3) sess0
      = (.error (.exception "Usage cap exceeded for Tweets."),
         ⟨[⟨"user_tweets", "u", none⟩], capEnv 0, []⟩) :=
  claim_c1 capEnv "u" (some 3) [] dummyResp (by decide) (by decide)

/-- Claim C2: a response whose rate-limit `limit` header is 0 makes
`return_server_limits` raise the division error (it never returns a
snapshot), the assignment `limit_log[key] = return_server_limits()` also
raises without binding the key, and a fetch run ending on such a response
propagates the division error with the session's rate-limit log exactly as
it was before the run — the failed snapshot is not stored. -/
theorem claim_c2 (r : Resp) (env : Nat → Resp) (uid : String) (log : Log)
    (r0 : Resp) (l : List Rec) (hr : r.limit = 0) (he : (env 0).limit = 0)
    (hd : (env 0).data = some l) :
    return_server_limits r = .error .zeroDivisionError
    ∧ (∀ key, set_limit_log log key r = .error .zeroDivisionError)
    ∧ get_user_following env uid (some 1) ⟨[], r0, log⟩
        = (.error .zeroDivisionError, ⟨[⟨"user_following", uid, none⟩], env 0, log⟩) := by
  refine ⟨by simp [return_server_limits, hr], fun key => ?_, ?_⟩
  · simp [set_limit_log, return_server_limits, hr]
  · unfold get_user_following
    rw [show (some 1).getD 15 = 0 + 1 from rfl, following_go]
    simp [get_url, hd, following_go, set_limit_log, return_server_limits, he]

/-- Witness for C2 at the zero-limit environment. -/
theorem claim_c2_witness :
    return_server_limits (zeroLimitEnv 0) = .error .zeroDivisionError
    ∧ get_user_following zeroLimitEnv "u" (some 1) sess0
        = (.error .zeroDivisionError,
           ⟨[⟨"user_following", "u", none⟩], zeroLimitEnv 0, []⟩) :=
  ⟨(claim_c2 (zeroLimitEnv 0) zeroLimitEnv "u" [] dummyResp [⟨"z", 0⟩]
      (by decide) (by decide) (by decide)).1,
   (claim_c2 (zeroLimitEnv 0) zeroLimitEnv "u" [] dummyResp [⟨"z", 0⟩]
      (by decide) (by decide) (by decide)).2.2⟩

/-- Claim C10: calling `get_user_profile` with the empty username raises
`IndexError` (from `username[0]`) and issues no HTTP request at all — the
session state is returned untouched, so a non-empty username is a
precondition of the operation. -/
theorem claim_c10 (env : Nat → Resp) (log : Log) (r0 : Resp) :
    get_user_profile env "" ⟨[], r0, log⟩ = (.error .indexError, ⟨[], r0, log⟩)
    ∧ (get_user_profile env "" ⟨[], r0, log⟩).2.requests = [] := by
  exact ⟨rfl, rfl⟩

set_option maxRecDepth 4000 in
/-- Claim C3: a `get_user_tweets` run given a maximum page count issues at
most that many requests; as soon as a response lacks a continuation
cursor, at most one request beyond it is ever on the transcript (the loop
stops early); and in the concrete scenario — max pages 3, page 0 with 100
records and cursor "A", page 1 with 100 records and cursor "B", page 2
with 50 records and no cursor — the result is the 250-record table and
exactly 3 requests are issued, no 4th being attempted. -/
theorem claim_c3 (env : Nat → Resp) (uid : String) (pages : Nat) (log : Log)
    (r0 : Resp) :
    (get_user_tweets env uid (some pages) ⟨[], r0, log⟩).2.requests.length ≤ pages
    ∧ (∀ j, (env j).next_token = none →
        (get_user_tweets env uid (some pages) ⟨[], r0, log⟩).2.requests.length ≤ j + 1)
    ∧ (get_user_tweets scenarioEnv "u" (some 3) sess0).1
        = .ok (.table (page0recs ++ page1recs ++ page2recs))
    ∧ (page0recs ++ page1recs ++ page2recs).length = 250
    ∧ (get_user_tweets scenarioEnv "u" (some 3) sess0).2.requests.length = 3 := by
  refine ⟨?_, ?_, by decide, by decide, by decide⟩
  · rw [(get_user_tweets_sess env uid (some pages) _).1]
    simpa using tweets_go_len_le env uid ((some pages).getD 1500) 0 [] ⟨[], r0, log⟩
  · intro j hj
    rw [(get_user_tweets_sess env uid (some pages) _).1]
    cases pages with
    | zero => simp [tweets_go]
    | succ m =>
      rw [show (some (m + 1)).getD 1500 = m + 1 from rfl, tweets_go]
      split
      · simp [get_url]
      · refine tweets_go_stop env uid j hj m 0 _ _ ?_ ?_ ?_
        · rfl
        · simp [get_url]
        · simp [get_url]

/-- Witness for C3: the scenario run satisfies the page bound, and the
early-stop bound applied at the cursorless page-2 response. -/
theorem claim_c3_witness :
    (get_user_tweets scenarioEnv "u" (some 3) sess0).2.requests.length ≤ 3
    ∧ (get_user_tweets scenarioEnv "u" (some 3) sess0).2.requests.length ≤ 2 + 1 :=
  ⟨(claim_c3 scenarioEnv "u" 3 [] dummyResp).1,
   (claim_c3 scenarioEnv "u" 3 [] dummyResp).2.1 2 (by decide)⟩

/-- Counterexample to C4: a `get_user_following` run whose page-0 response
has neither a `data` key nor an `errors` key raises `KeyError` instead of
returning an empty table — page 0 of the relationship loops indexes
`json()["data"]` directly with no guard. -/
theorem claim_c4_counterexample :
    (get_user_following noDataEnv "u" none sess0).1 = .error .keyError := by
  decide

/-- Claim C4 as amended: only the tweets loop treats a page-0 response with
neither `data` nor `errors` (and no cursor, no error title, a non-zero
rate limit) as an empty page: its Collected Table stays empty and the call
returns the raw-body diagnostic table without raising, while the
`following` and `followers` loops raise `KeyError` on such a page 0. -/
theorem claim_c4_amended (env : Nat → Resp) (uid : String) (pages : Nat)
    (log : Log) (r0 : Resp) (ht : (env 0).title = none)
    (hd : (env 0).data = none) (hn : (env 0).next_token = none)
    (he : (env 0).errors = none) (hl : (env 0).limit ≠ 0) (hp : 1 ≤ pages) :
    (tweets_go env uid 0 pages [] ⟨[], r0, log⟩).1 = .ok []
    ∧ (get_user_tweets env uid (some pages) ⟨[], r0, log⟩).1 = .ok (.rawBody (env 0))
    ∧ (get_user_following env uid (some pages) ⟨[], r0, log⟩).1 = .error .keyError
    ∧ (get_user_followers env uid (some pages) ⟨[], r0, log⟩).1 = .error .keyError := by
  obtain ⟨m, rfl⟩ : ∃ m, pages = m + 1 := ⟨pages - 1, by omega⟩
  have hgo : tweets_go env uid 0 (m + 1) [] ⟨[], r0, log⟩
      = (.ok [], get_url env ⟨[], r0, log⟩ ⟨"user_tweets", uid, none⟩) := by
    cases m with
    | zero => rw [tweets_go]; simp [get_url, ht, hd, tweets_go]
    | succ m' => rw [tweets_go]; simp [get_url, ht, hd, tweets_go, hn]
  have hfoll : following_go env uid 0 (m + 1) [] ⟨[], r0, log⟩
      = (.error .keyError, get_url env ⟨[], r0, log⟩ ⟨"user_following", uid, none⟩) := by
    rw [following_go]; simp [get_url, hd]
  have hfoll2 : followers_go env uid 0 (m + 1) [] ⟨[], r0, log⟩
      = (.error .keyError, get_url env ⟨[], r0, log⟩ ⟨"user_followers", uid, none⟩) := by
    rw [followers_go]; simp [get_url, hd]
  refine ⟨by rw [hgo], ?_, ?_, ?_⟩
  · unfold get_user_tweets
    rw [show (some (m + 1)).getD 1500 = m + 1 from rfl, hgo]
    simp [set_limit_log, return_server_limits, get_url, hl, he]
  · unfold get_user_following
    rw [show (some (m + 1)).getD 15 = m + 1 from rfl, hfoll]
  · unfold get_user_followers
    rw [show (some (m + 1)).getD 15 = m + 1 from rfl, hfoll2]

/-- Witness for the amended C4 at the concrete no-data environment. -/
theorem claim_c4_amended_witness :
    (tweets_go noDataEnv "u" 0 15 [] sess0).1 = .ok []
    ∧ (get_user_tweets noDataEnv "u" (some 15) sess0).1 = .ok (.rawBody (noDataEnv 0))
    ∧ (get_user_following noDataEnv "u" (some 15) sess0).1 = .error .keyError
    ∧ (get_user_followers noDataEnv "u" (some 15) sess0).1 = .error .keyError :=
  claim_c4_amended noDataEnv "u" 15 [] dummyResp (by decide) (by decide)
    (by decide) (by decide) (by decide) (by decide)

theorem tweets_go_endless0 (uid : String) (n : Nat) (s : Sess) :
    (tweets_go endlessEnv uid 0 (n + 1) [] s).2.requests.length
      = s.requests.length + (n + 1)
    ∧ (tweets_go endlessEnv uid 0 (n + 1) [] s).2.response = endlessEnv 0 := by
  have hn : ¬((get_url endlessEnv s ⟨"user_tweets", uid, none⟩).response.title
      = some "UsageCapExceeded") := fun h => Option.noConfusion h
  have hstep : tweets_go endlessEnv uid 0 (n + 1) [] s
      = tweets_go endlessEnv uid 1 n [⟨"e", 0⟩]
          (get_url endlessEnv s ⟨"user_tweets", uid, none⟩) := by
    rw [tweets_go, if_neg hn]
    rfl
  rw [hstep]
  obtain ⟨hl, hr⟩ := tweets_go_endless uid n 0 [⟨"e", 0⟩]
    (get_url endlessEnv s ⟨"user_tweets", uid, none⟩) rfl
  refine ⟨?_, hr⟩
  rw [hl, get_url_requests_length]
  omega

theorem following_go_endless0 (uid : String) (n : Nat) (s : Sess) :
    (following_go endlessEnv uid 0 (n + 1) [] s).2.requests.length
      = s.requests.length + (n + 1)
    ∧ (following_go endlessEnv uid 0 (n + 1) [] s).2.response = endlessEnv 0 := by
  have hstep : following_go endlessEnv uid 0 (n + 1) [] s
      = following_go endlessEnv uid 1 n [⟨"e", 0⟩]
          (get_url endlessEnv s ⟨"user_following", uid, none⟩) := by
    rw [following_go]
    rfl
  rw [hstep]
  obtain ⟨hl, hr⟩ := following_go_endless uid n 0 [⟨"e", 0⟩]
    (get_url endlessEnv s ⟨"user_following", uid, none⟩) rfl
  refine ⟨?_, hr⟩
  rw [hl, get_url_requests_length]
  omega

theorem followers_go_endless0 (uid : String) (n : Nat) (s : Sess) :
    (followers_go endlessEnv uid 0 (n + 1) [] s).2.requests.length
      = s.requests.length + (n + 1)
    ∧ (followers_go endlessEnv uid 0 (n + 1) [] s).2.response = endlessEnv 0 := by
  have hstep : followers_go endlessEnv uid 0 (n + 1) [] s
      = followers_go endlessEnv uid 1 n [⟨"e", 0⟩]
          (get_url endlessEnv s ⟨"user_followers", uid, none⟩) := by
    rw [followers_go]
    rfl
  rw [hstep]
  obtain ⟨hl, hr⟩ := followers_go_endless uid n 0 [⟨"e", 0⟩]
    (get_url endlessEnv s ⟨"user_followers", uid, none⟩) rfl
  refine ⟨?_, hr⟩
  rw [hl, get_url_requests_length]
  omega

theorem tweets_endless_start :
    (tweets_go endlessEnv "u" 0 1500 [] sess0).2.requests.length = 1500
    ∧ (tweets_go endlessEnv "u" 0 1500 [] sess0).2.response = endlessEnv 0 := by
  have h := tweets_go_endless0 "u" 1499 sess0
  rw [show (1499 : Nat) + 1 = 1500 from rfl] at h
  exact ⟨h.1.trans rfl, h.2⟩

theorem following_endless_start :
    (following_go endlessEnv "u" 0 15 [] sess0).2.requests.length = 15
    ∧ (following_go endlessEnv "u" 0 15 [] sess0).2.response = endlessEnv 0 := by
  have h := following_go_endless0 "u" 14 sess0
  rw [show (14 : Nat) + 1 = 15 from rfl] at h
  exact ⟨h.1.trans rfl, h.2⟩

theorem followers_endless_start :
    (followers_go endlessEnv "u" 0 15 [] sess0).2.requests.length = 15
    ∧ (followers_go endlessEnv "u" 0 15 [] sess0).2.response = endlessEnv 0 := by
  have h := followers_go_endless0 "u" 14 sess0
  rw [show (14 : Nat) + 1 = 15 from rfl] at h
  exact ⟨h.1.trans rfl, h.2⟩

/-- Counterexample to C5: with no page count supplied, the tweet-timeline
loop is not unbounded — against an inexhaustible server it stops after
exactly 1500 requests even though the final response still carries a
continuation cursor, so further pages existed and were not fetched. -/
theorem claim_c5_counterexample :
    (get_user_tweets endlessEnv "u" none sess0).2.requests.length = 1500
    ∧ (get_user_tweets endlessEnv "u" none sess0).2.response.next_token = some "T" := by
  have hs := get_user_tweets_sess endlessEnv "u" none sess0
  rw [show (none : Option Nat).getD 1500 = 1500 from rfl] at hs
  refine ⟨?_, ?_⟩
  · rw [hs.1]; exact tweets_endless_start.1
  · rw [hs.2, tweets_endless_start.2]
    rfl

/-- Claim C5 as amended: when no page count is supplied, the tweet-timeline
loop defaults to a fixed cap of 1500 pages (not an unbounded count), and
the relationship loops (following, followers) default to 15 pages; each
bound is attained against an inexhaustible server. -/
theorem claim_c5_amended (env : Nat → Resp) (uid : String) (log : Log)
    (r0 : Resp) :
    (get_user_tweets env uid none ⟨[], r0, log⟩).2.requests.length ≤ 1500
    ∧ (get_user_following env uid none ⟨[], r0, log⟩).2.requests.length ≤ 15
    ∧ (get_user_followers env uid none ⟨[], r0, log⟩).2.requests.length ≤ 15
    ∧ (get_user_following endlessEnv "u" none sess0).2.requests.length = 15
    ∧ (get_user_followers endlessEnv "u" none sess0).2.requests.length = 15 := by
  refine ⟨?_, ?_, ?_, ?_, ?_⟩
  · rw [(get_user_tweets_sess env uid none _).1]
    simpa using tweets_go_len_le env uid 1500 0 [] ⟨[], r0, log⟩
  · rw [(get_user_following_sess env uid none _).1]
    simpa using following_go_len_le env uid 15 0 [] ⟨[], r0, log⟩
  · rw [(get_user_followers_sess env uid none _).1]
    simpa using followers_go_len_le env uid 15 0 [] ⟨[], r0, log⟩
  · have hs := get_user_following_sess endlessEnv "u" none sess0
    rw [show (none : Option Nat).getD 15 = 15 from rfl] at hs
    rw [hs.1]
    exact following_endless_start.1
  · have hs := get_user_followers_sess endlessEnv "u" none sess0
    rw [show (none : Option Nat).getD 15 = 15 from rfl] at hs
    rw [hs.1]
    exact followers_endless_start.1

/-- Counterexample to C6: in the `get_string_query` fetch loop the absence
of a continuation cursor on a later page is surfaced to the caller as a
`KeyError` — the cursor read has no `try/except` guard there — rather than
terminating the loop normally. -/
theorem claim_c6_counterexample :
    (get_string_query qEnv "q" (some 2) sess0).1 = .error .keyError := by
  decide

/-- Claim C6 as amended: in the tweets, following and followers fetch
loops, absence of a continuation cursor on a later page — or absence of
the `data` field in a later page's response — terminates the loop normally
with the rows collected so far and is never surfaced as an error; the
string-query loop instead propagates a `KeyError` in that situation. -/
theorem claim_c6_amended (env : Nat → Resp) (uid : String) (i n : Nat)
    (df : List Rec) (s : Sess) (tok : String) :
    (s.response.next_token = none →
      tweets_go env uid (i + 1) (n + 1) df s = (.ok df, s)
      ∧ following_go env uid (i + 1) (n + 1) df s = (.ok df, s)
      ∧ followers_go env uid (i + 1) (n + 1) df s = (.ok df, s))
    ∧ (s.response.next_token = some tok → (env s.requests.length).data = none →
      tweets_go env uid (i + 1) (n + 1) df s
        = (.ok df, get_url env s ⟨"user_tweets", uid, some tok⟩)
      ∧ following_go env uid (i + 1) (n + 1) df s
        = (.ok df, get_url env s ⟨"user_following", uid, some tok⟩)
      ∧ followers_go env uid (i + 1) (n + 1) df s
        = (.ok df, get_url env s ⟨"user_followers", uid, some tok⟩)) := by
  constructor
  · intro h
    refine ⟨?_, ?_, ?_⟩
    · rw [tweets_go, h]
    · rw [following_go, h]
    · rw [followers_go, h]
  · intro h hd
    refine ⟨?_, ?_, ?_⟩
    · rw [tweets_go, h]; simp [get_url, hd]
    · rw [following_go, h]; simp [get_url, hd]
    · rw [followers_go, h]; simp [get_url, hd]

/-- Witness for the amended C6: a later iteration whose previous response
has no cursor returns the collected rows unchanged in all three loops. -/
theorem claim_c6_amended_witness :
    tweets_go oneEnv "u" 1 1 [] sess0 = (.ok [], sess0)
    ∧ following_go oneEnv "u" 1 1 [] sess0 = (.ok [], sess0)
    ∧ followers_go oneEnv "u" 1 1 [] sess0 = (.ok [], sess0) :=
  (claim_c6_amended oneEnv "u" 0 0 [] sess0 "x").1 (by decide)

/-- Claim C8: whenever a tweets or following fetch loop completes normally,
the Collected Table is exactly the concatenation, in page-arrival order,
of the `data` payloads of the responses received — page 0's records
strictly precede page 1's, and no record is dropped or reordered. -/
theorem claim_c8 (env : Nat → Resp) (uid : String) (pages : Nat) (log : Log)
    (r0 : Resp) (df : List Rec) (s1 : Sess) :
    (tweets_go env uid 0 pages [] ⟨[], r0, log⟩ = (.ok df, s1) →
      df = collected env s1.requests.length)
    ∧ (following_go env uid 0 pages [] ⟨[], r0, log⟩ = (.ok df, s1) →
      df = collected env s1.requests.length) := by
  constructor
  · intro heq
    cases pages with
    | zero =>
      rw [tweets_go] at heq
      cases heq
      simp [collected]
    | succ m =>
      rw [tweets_go] at heq
      by_cases hcap : (get_url env ⟨[], r0, log⟩
          ⟨"user_tweets", uid, none⟩).response.title = some "UsageCapExceeded"
      · rw [if_pos hcap] at heq
        exact absurd heq (by simp)
      · rw [if_neg hcap] at heq
        refine tweets_go_collect env uid m 0 _ _ ?_ ?_ ?_ df s1 heq
        · simp [get_url]
        · simp [get_url]
        · rcases hd : (env 0).data with _ | l
          · simp [get_url, hd, collected, List.range_succ]
          · cases l with
            | nil => simp [get_url, hd, collected, List.range_succ]
            | cons a t => simp [get_url, hd, collected, List.range_succ]
  · intro heq
    cases pages with
    | zero =>
      rw [following_go] at heq
      cases heq
      simp [collected]
    | succ m =>
      rw [following_go] at heq
      cases hd : (get_url env ⟨[], r0, log⟩
          ⟨"user_following", uid, none⟩).response.data with
      | none =>
        rw [hd] at heq
        exact absurd heq (by simp)
      | some l =>
        rw [hd] at heq
        refine following_go_collect env uid m 0 _ _ ?_ ?_ ?_ df s1 heq
        · simp [get_url]
        · simp [get_url]
        · have hd0 : (env 0).data = some l := by simpa [get_url] using hd
          simp [get_url, collected, List.range_succ, hd0]

/-- Witness for C8 at a one-page environment: the single collected page
equals the arrival-order concatenation. -/
theorem claim_c8_witness :
    [(⟨"a", 0⟩ : Rec)]
      = collected oneEnv
          (Sess.mk [⟨"user_tweets", "u", none⟩] (oneEnv 0) []).requests.length
    ∧ [(⟨"a", 0⟩ : Rec)]
      = collected oneEnv
          (Sess.mk [⟨"user_following", "u", none⟩] (oneEnv 0) []).requests.length :=
  ⟨(claim_c8 oneEnv "u" 1 [] dummyResp [⟨"a", 0⟩]
      ⟨[⟨"user_tweets", "u", none⟩], oneEnv 0, []⟩).1 (by decide),
   (claim_c8 oneEnv "u" 1 [] dummyResp [⟨"a", 0⟩]
      ⟨[⟨"user_following", "u", none⟩], oneEnv 0, []⟩).2 (by decide)⟩

/-- Claim C9: in `get_user_snapshot` at most one of the two optional
relationship stages runs per call, and when both the followers flag and
the following flag are set the run is identical to the run with only the
followers flag — the following flag is silently ignored by the `if/elif`
ordering. -/
theorem claim_c9 (env : Nat → Resp) (u : String) (fl fg : Bool) (s : Sess) :
    get_user_snapshot env u true true s = get_user_snapshot env u true false s
    ∧ ((get_user_snapshot env u fl fg s).2.2.filter
        (fun w => w.2 == "following" || w.2 == "followers")).length ≤ 1 := by
  constructor
  · rfl
  · unfold get_user_snapshot
    repeat' split
    all_goals (try simp)
